import Mathlib

/-!
Shallow embedding of the kdguard password generation and strength-assessment
engine (src/src/password/generator.rs and src/src/password/health_check.rs).

Modelling conventions:
- Rust `&str` becomes Lean `String`; byte strings become `List Nat`.
- Machine integers (`u32`, `usize`) become `Nat`; all uses in the embedded
  code are modular reductions or small counters, so no overflow arises.
- The OS random source (`ring::rand::SystemRandom`) is modelled as an
  explicit infallible stream `rng : Nat → Nat` delivering the big-endian
  `u32` read by the k-th `rng.fill` call of the enclosing entry point; the
  code only ever uses these values modulo a charset size, so an arbitrary
  `Nat` stream subsumes every `u32` stream.
- The HKDF-SHA256 extract/expand pair supplied by the external `ring` crate
  is modelled as an explicit pure function argument
  `expand : List Nat → List Nat → List Nat → Option (List Nat)`
  (salt bytes, seed key material, info label ↦ 32-byte output block, `none`
  on expand/fill failure); the repository code treats it as an opaque pure
  keyed derivation, and every theorem below quantifies over it.
- The f64 entropy value is modelled in `ℝ` with exact arithmetic
  (`Real.logb`); this is the one non-executable part of the embedding.
- Rust character classification (`char::is_lowercase` etc.) is modelled by
  the ASCII classifiers `Char.isLower`/`Char.isUpper`/`Char.isDigit`; every
  charset, corpus entry and generated password in the embedded engine is
  ASCII, where the two semantics agree.
-/

namespace KdGuard

/-- Character list of the `CHARSET` byte constant of generator.rs
(line 11): the combined charset used by random and deterministic
generation. -/
def CHARSET : List Char :=
  "abcdefghijklmnopqrstuvwxyzABCDEFGHIJKLMNOPQRSTUVWXYZ0123456789!@#$%^&*()-_=+".data

/-- The `UPPERCASE` class constant of generate_pattern_password. -/
def UPPERCASE : List Char := "ABCDEFGHIJKLMNOPQRSTUVWXYZ".data

/-- The `LOWERCASE` class constant of generate_pattern_password. -/
def LOWERCASE : List Char := "abcdefghijklmnopqrstuvwxyz".data

/-- The `DIGITS` class constant of generate_pattern_password. -/
def DIGITS : List Char := "0123456789".data

/-- The `SPECIAL` class constant of generate_pattern_password. -/
def SPECIAL : List Char := "!@#$%^&*()-_=+".data

/-- The fixed `special_chars` slice shared by is_valid_password
(generator.rs) and the health-check scoring loops. -/
def specialChars : List Char :=
  ['!', '@', '#', '$', '%', '^', '&', '*', '(', ')', '-', '_', '=', '+']

/-- Presence flags for the four character classes, as accumulated by the
classification loops of is_valid_password and calculate_diversity_score. -/
structure ClassFlags where
  lower : Bool
  upper : Bool
  digit : Bool
  special : Bool
deriving DecidableEq, Repr

/-- One step of the if/else-if classification chain shared (textually
identical) by is_valid_password and calculate_diversity_score. -/
def classify (f : ClassFlags) (c : Char) : ClassFlags :=
  if c.isLower then { f with lower := true }
  else if c.isUpper then { f with upper := true }
  else if c.isDigit then { f with digit := true }
  else if specialChars.contains c then { f with special := true }
  else f

/-- Folds the classification chain over a password's characters. -/
def scanFlags (s : String) : ClassFlags :=
  s.data.foldl classify ⟨false, false, false, false⟩

/-- Generator::is_valid_password (generator.rs lines 298-321): true iff the
candidate contains at least one character of each of the four classes. -/
def is_valid_password (s : String) : Bool :=
  let f := scanFlags s
  f.lower && f.upper && f.digit && f.special

/-- GeneratorError variants of errors.rs (lines 54-78). -/
inductive GeneratorError where
  | InvalidLength (msg : String)
  | EmptyPattern
  | InvalidPatternCharacter (c : Char)
  | InvalidWordCount
  | EmptyWordlist
  | EmptySeed
  | MaxRetriesExceeded
  | RandomBytesError (msg : String)
  | HkdfExpandError
  | HkdfFillError
  | SaveFileError (msg : String)
deriving DecidableEq, Repr

/-- HealthCheck::calculate_length_score (health_check.rs lines 152-159). -/
def calculate_length_score (length : Nat) : Nat :=
  if length ≤ 7 then 0
  else if length ≤ 12 then 10
  else if length ≤ 16 then 20
  else 25

/-- HealthCheck::calculate_diversity_score (health_check.rs lines
170-211): class score plus all-four bonus, and the four presence flags. -/
def calculate_diversity_score (s : String) : Nat × ClassFlags :=
  let f := scanFlags s
  let score :=
    (if f.lower then 5 else 0) + (if f.upper then 5 else 0) +
    (if f.digit then 5 else 0) + (if f.special then 5 else 0) +
    (if f.lower && f.upper && f.digit && f.special then 10 else 0)
  (score, f)

/-- ASCII lowering of a string, modelling Rust str::to_lowercase as used on
the (ASCII) password and corpus entries in has_common_patterns. -/
def lowerStr (s : String) : String :=
  ⟨s.data.map Char.toLower⟩

/-- Whitespace trimming of a string, modelling Rust str::trim as applied to
each corpus line in has_common_patterns. -/
def trimStr (s : String) : String :=
  ⟨((s.data.dropWhile Char.isWhitespace).reverse.dropWhile Char.isWhitespace).reverse⟩

/-- Contiguous-substring test on character lists, modelling Rust
str::contains with a string needle: `occursIn needle hay` is true iff
`needle` occurs contiguously inside `hay`. -/
def occursIn (needle : List Char) : List Char → Bool
  | [] => needle.isEmpty
  | h :: t => needle.isPrefixOf (h :: t) || occursIn needle t

/-- HealthCheck::has_common_patterns (health_check.rs lines 247-265)
parametrised by the corpus line list: lower-case the password, then scan
the corpus; each line is trimmed and lower-cased, empty lines are skipped,
and a line matches on equality or on substring containment in either
direction. -/
def hasCommonPatternsWith (corpus : List String) (password : String) : Bool :=
  let pl := lowerStr password
  corpus.any fun line =>
    let common := lowerStr (trimStr line)
    if common = "" then false
    else pl == common || occursIn common.data pl.data || occursIn pl.data common.data

/-- Modelled from the spec: the bundled common-password corpus
(`data/10k-most-common-passwords.txt`, pulled in with include_str!) is not
under src/. The spec describes it as ~10,000 lower-cased known-weak
passwords; the repository's tests assert that "password" and "123456"
match it and that "Xy9$mK2@nP7#qW" does not. It is modelled as a small
representative list of such entries. -/
def COMMON_PASSWORDS : List String :=
  ["password", "123456", "12345678", "qwerty", "abc123"]

/-- HealthCheck::has_common_patterns applied to the bundled corpus. -/
def has_common_patterns (password : String) : Bool :=
  hasCommonPatternsWith COMMON_PASSWORDS password

/-- Sliding-window core of HealthCheck::has_repetitions: true iff three
equal consecutive characters occur. -/
def hasRepetitionsAux : List Char → Bool
  | a :: b :: c :: rest => (a == b && b == c) || hasRepetitionsAux (b :: c :: rest)
  | _ => false

/-- HealthCheck::has_repetitions (health_check.rs lines 276-289). -/
def has_repetitions (s : String) : Bool :=
  hasRepetitionsAux s.data

/-- HealthCheck::calculate_complexity_score (health_check.rs lines
222-234): +15 without a common-pattern match, +10 without a repetition. -/
def calculate_complexity_score (s : String) : Nat :=
  (if has_common_patterns s then 0 else 15) +
  (if has_repetitions s then 0 else 10)

/-- One step of the charset-size accumulation loop of
calculate_entropy_score: each class contributes its size once, on the
first character of that class. -/
def entStep (st : Nat × ClassFlags) (c : Char) : Nat × ClassFlags :=
  if c.isLower && !st.2.lower then (st.1 + 26, { st.2 with lower := true })
  else if c.isUpper && !st.2.upper then (st.1 + 26, { st.2 with upper := true })
  else if c.isDigit && !st.2.digit then (st.1 + 10, { st.2 with digit := true })
  else if specialChars.contains c && !st.2.special then
    (st.1 + specialChars.length, { st.2 with special := true })
  else st

/-- Effective charset size of a password, as accumulated by
calculate_entropy_score (health_check.rs lines 300-326). -/
def entropyCharsetSize (s : String) : Nat :=
  (s.data.foldl entStep (0, ⟨false, false, false, false⟩)).1

/-- HealthCheck::calculate_entropy_score (health_check.rs lines 300-343):
entropy = byte length × log2(charset size), with an early (0, 0.0) return
on an empty effective charset; the score is banded at 30/40/50 bits. The
f64 value is modelled in ℝ with exact arithmetic. -/
noncomputable def calculate_entropy_score (s : String) : Nat × ℝ :=
  let c := entropyCharsetSize s
  if c = 0 then (0, 0)
  else
    let entropy : ℝ := (s.utf8ByteSize : ℝ) * Real.logb 2 (c : ℝ)
    let score : Nat :=
      if entropy < 30 then 5
      else if entropy < 40 then 10
      else if entropy < 50 then 15
      else 20
    (score, entropy)

/-- Semantic rating bands of HealthCheck::score_to_rating; the source
returns the locale-rendered string for the band, rendering being a
collaborator concern. -/
inductive Rating where
  | weak
  | medium
  | strong
  | veryStrong
deriving DecidableEq, Repr

/-- HealthCheck::score_to_rating (health_check.rs lines 354-361). -/
def score_to_rating (score : Nat) : Rating :=
  if score ≤ 40 then .weak
  else if score ≤ 60 then .medium
  else if score ≤ 80 then .strong
  else .veryStrong

/-- PasswordScore struct of health_check.rs (lines 10-17). -/
structure PasswordScore where
  total : Nat
  length_score : Nat
  diversity_score : Nat
  complexity_score : Nat
  entropy_score : Nat
deriving DecidableEq, Repr

/-- PasswordAnalysis struct of health_check.rs (lines 19-31); warnings and
suggestions carry the semantic localisation keys passed to Lingua::t
(rendering is a collaborator concern). -/
structure PasswordAnalysis where
  score : PasswordScore
  rating : Rating
  has_lowercase : Bool
  has_uppercase : Bool
  has_digit : Bool
  has_special : Bool
  length : Nat
  entropy : ℝ
  warnings : List String
  suggestions : List String

/-- HealthCheck::analyze_password (health_check.rs lines 71-141). The
`length` field is `password.len()`, i.e. the UTF-8 byte length. -/
noncomputable def analyze_password (password : String) : PasswordAnalysis :=
  let length := password.utf8ByteSize
  let length_score := calculate_length_score length
  let dv := calculate_diversity_score password
  let diversity_score := dv.1
  let f := dv.2
  let complexity_score := calculate_complexity_score password
  let es := calculate_entropy_score password
  let entropy_score := es.1
  let entropy := es.2
  let total := length_score + diversity_score + complexity_score + entropy_score
  let rating := score_to_rating total
  let warnings :=
    (if length < 8 then ["password_too_short"] else []) ++
    (if !f.lower then ["no_lowercase"] else []) ++
    (if !f.upper then ["no_uppercase"] else []) ++
    (if !f.digit then ["no_digits"] else []) ++
    (if !f.special then ["no_special"] else []) ++
    (if has_common_patterns password then ["common_patterns"] else []) ++
    (if has_repetitions password then ["repetitions"] else [])
  let suggestions :=
    (if length < 8 then ["password_to_short"] else []) ++
    (if !f.lower then ["add_lowercase"] else []) ++
    (if !f.upper then ["add_uppercase"] else []) ++
    (if !f.digit then ["add_digits"] else []) ++
    (if !f.special then ["add_special"] else []) ++
    (if has_common_patterns password then ["avoid_simple_sequences"] else []) ++
    (if has_repetitions password then ["avoid_repetitions"] else [])
  { score :=
      { total := total
        length_score := length_score
        diversity_score := diversity_score
        complexity_score := complexity_score
        entropy_score := entropy_score }
    rating := rating
    has_lowercase := f.lower
    has_uppercase := f.upper
    has_digit := f.digit
    has_special := f.special
    length := length
    entropy := entropy
    warnings := warnings
    suggestions := suggestions }

deriving instance DecidableEq for Except

/-- Characters produced by one sampling attempt of
generate_random_password: character `i` of the attempt starting at stream
position `start` is `CHARSET[rng (start + i) % CHARSET.len()]`. -/
def sampleChars (rng : Nat → Nat) (start len : Nat) : List Char :=
  (List.range len).map fun i => CHARSET.getD (rng (start + i) % CHARSET.length) 'a'

/-- Retry loop of generate_random_password (generator.rs lines 41-63):
attempt `attempt` consumes stream positions
`attempt * length .. attempt * length + length - 1`; the first attempt
passing is_valid_password is returned, and 100 failures yield
MaxRetriesExceeded. -/
def randomAttempts (rng : Nat → Nat) (length : Nat) :
    Nat → Nat → Except GeneratorError String
  | 0, _ => .error .MaxRetriesExceeded
  | fuel + 1, attempt =>
    let password : String := ⟨sampleChars rng (attempt * length) length⟩
    if is_valid_password password then .ok password
    else randomAttempts rng length fuel (attempt + 1)

/-- Generator::generate_random_password (generator.rs lines 26-67),
parametrised by the random stream. -/
def generate_random_password (rng : Nat → Nat) (length : Nat) :
    Except GeneratorError String :=
  if 8 ≤ length ∧ length ≤ 64 then
    randomAttempts rng length 100 0
  else
    .error (.InvalidLength
      ("Password length must be between 8 and 64, got: " ++ toString length))

/-- Class charset selected for one template character by the match of
generate_pattern_password; `none` for an out-of-alphabet character. -/
def classCharset (c : Char) : Option (List Char) :=
  if c = 'U' then some UPPERCASE
  else if c = 'L' then some LOWERCASE
  else if c = 'D' then some DIGITS
  else if c = 'S' then some SPECIAL
  else none

/-- Character loop of generate_pattern_password (generator.rs lines
97-122): template character number `i` consumes stream position `i` and
appends a character of its class charset; the first out-of-alphabet
character aborts with InvalidPatternCharacter. -/
def patLoop (rng : Nat → Nat) : List Char → Nat → List Char → Except GeneratorError String
  | [], _, acc => .ok ⟨acc.reverse⟩
  | c :: rest, i, acc =>
    match classCharset c with
    | none => .error (.InvalidPatternCharacter c)
    | some cs => patLoop rng rest (i + 1) (cs.getD (rng i % cs.length) 'a' :: acc)

/-- Generator::generate_pattern_password (generator.rs lines 78-126),
parametrised by the random stream. -/
def generate_pattern_password (rng : Nat → Nat) (pattern : String) :
    Except GeneratorError String :=
  if pattern = "" then .error .EmptyPattern
  else patLoop rng pattern.data 0 []

/-- First template character that falls outside the {U, L, D, S} alphabet,
if any; characterises which character generate_pattern_password's error
carries. -/
def firstInvalid : List Char → Option Char
  | [] => none
  | c :: rest => if (classCharset c).isSome then firstInvalid rest else some c

/-- Generator::generate_phrase_password (generator.rs lines 158-201),
parametrised by the resolved wordlist and the random stream. The wordlist
argument models the locale corpus resolved by get_wordlist (the
include_str! wordlist data files are not under src/); word number `i`
consumes stream position `i`, and the chosen words are joined by `-`. -/
def generate_phrase_password (words : List String) (rng : Nat → Nat)
    (words_count : Nat) : Except GeneratorError String :=
  if 3 ≤ words_count ∧ words_count ≤ 20 then
    if words = [] then .error .EmptyWordlist
    else
      .ok (String.intercalate "-"
        ((List.range words_count).map fun i => words.getD (rng i % words.length) ""))
  else .error .InvalidWordCount

/-- UTF-8 byte list of a string, modelling Rust str::as_bytes. -/
def utf8Bytes (s : String) : List Nat :=
  s.toUTF8.toList.map (fun b => b.toNat)

/-- Big-endian 4-byte encoding of the retry counter, modelling
u32::to_be_bytes. -/
def be4 (n : Nat) : List Nat :=
  [n / 2 ^ 24 % 256, n / 2 ^ 16 % 256, n / 2 ^ 8 % 256, n % 256]

/-- Info label built for one retry of generate_deterministic_password
(generator.rs lines 244-250): the fixed domain tag, optionally
`"-" ++ service`, then `"-"` and the big-endian retry counter. -/
def detInfo (service : Option String) (retry : Nat) : List Nat :=
  utf8Bytes "kdguard-password" ++
  (match service with
   | some sv => utf8Bytes "-" ++ utf8Bytes sv
   | none => []) ++
  utf8Bytes "-" ++ be4 retry

/-- The 20-character candidate built from one 32-byte expansion block
(generator.rs lines 265-272): starting offset `(retry * 13) % 32`, output
position `i` takes byte `(offset + i) % 32` reduced modulo the combined
charset length. -/
def detCandidate (output : List Nat) (retry : Nat) : String :=
  let offset := retry * 13 % 32
  ⟨(List.range 20).map fun i =>
    CHARSET.getD (output.getD ((offset + i) % 32) 0 % CHARSET.length) 'a'⟩

/-- Retry loop of generate_deterministic_password (generator.rs lines
242-281): each retry expands the pseudorandom key against the retry's info
label, maps the block to a 20-character candidate and accepts it iff it
passes is_valid_password; expansion failure is fatal, and 1000 rejected
candidates yield MaxRetriesExceeded. -/
def detLoop (expand : List Nat → List Nat → List Nat → Option (List Nat))
    (saltB seedB : List Nat) (service : Option String) :
    Nat → Nat → Except GeneratorError String
  | 0, _ => .error .MaxRetriesExceeded
  | fuel + 1, retry =>
    match expand saltB seedB (detInfo service retry) with
    | none => .error .HkdfExpandError
    | some output =>
      let password := detCandidate output retry
      if is_valid_password password then .ok password
      else detLoop expand saltB seedB service fuel (retry + 1)

/-- Generator::generate_deterministic_password (generator.rs lines
214-287), parametrised by the pure HKDF-SHA256 expand function supplied by
the external `ring` crate (salt bytes and seed key material standing for
the extracted pseudorandom key, info label ↦ 32-byte block). No random
stream is consumed on this path. -/
def generate_deterministic_password
    (expand : List Nat → List Nat → List Nat → Option (List Nat))
    (seed : String) (salt : Option String) (service : Option String) :
    Except GeneratorError String :=
  if seed = "" then .error .EmptySeed
  else
    let salt_bytes := utf8Bytes (salt.getD "kdguard")
    let seed_bytes := utf8Bytes seed
    detLoop expand salt_bytes seed_bytes service 1000 0

/-- Characters produced by the loop of generate_pattern_password, one per
template character, starting at stream position `i`; used to characterise
the all-valid-template behaviour. -/
def patChars (rng : Nat → Nat) : List Char → Nat → List Char
  | [], _ => []
  | c :: rest, i =>
    (match classCharset c with
     | some cs => cs.getD (rng i % cs.length) 'a'
     | none => 'a') :: patChars rng rest (i + 1)

/-- The empty character list occurs in every character list. -/
theorem occursIn_nil (l : List Char) : occursIn [] l = true := by
  cases l <;> simp [occursIn, List.isPrefixOf]

/-- The length score is at most 25. -/
theorem calculate_length_score_le (n : Nat) : calculate_length_score n ≤ 25 := by
  unfold calculate_length_score
  split_ifs <;> omega

/-- The diversity score is at most 30. -/
theorem calculate_diversity_score_le (s : String) :
    (calculate_diversity_score s).1 ≤ 30 := by
  simp only [calculate_diversity_score]
  split_ifs <;> omega

/-- The complexity score is at most 25. -/
theorem calculate_complexity_score_le (s : String) :
    calculate_complexity_score s ≤ 25 := by
  unfold calculate_complexity_score
  split_ifs <;> omega

/-- The entropy score is at most 20. -/
theorem calculate_entropy_score_le (s : String) :
    (calculate_entropy_score s).1 ≤ 20 := by
  unfold calculate_entropy_score
  dsimp only
  split_ifs <;> simp

/-- One random sampling attempt yields exactly `len` characters. -/
theorem sampleChars_length (rng : Nat → Nat) (start len : Nat) :
    (sampleChars rng start len).length = len := by
  simp [sampleChars]

/-- Any password accepted by the retry loop of generate_random_password
has the requested length and passes the validator. -/
theorem randomAttempts_ok (rng : Nat → Nat) (length : Nat) :
    ∀ fuel attempt s, randomAttempts rng length fuel attempt = .ok s →
      s.length = length ∧ is_valid_password s = true := by
  intro fuel
  induction fuel with
  | zero => intro attempt s h; simp [randomAttempts] at h
  | succ n ih =>
    intro attempt s h
    rw [randomAttempts] at h
    by_cases hv : is_valid_password ⟨sampleChars rng (attempt * length) length⟩ = true
    · rw [if_pos hv] at h
      cases h
      exact ⟨sampleChars_length .., hv⟩
    · rw [if_neg hv] at h
      exact ih (attempt + 1) s h

/-- Any password accepted by the retry loop of
generate_deterministic_password has exactly 20 characters and passes the
validator. -/
theorem detLoop_ok (expand : List Nat → List Nat → List Nat → Option (List Nat))
    (saltB seedB : List Nat) (service : Option String) :
    ∀ fuel retry s, detLoop expand saltB seedB service fuel retry = .ok s →
      s.length = 20 ∧ is_valid_password s = true := by
  intro fuel
  induction fuel with
  | zero => intro retry s h; simp [detLoop] at h
  | succ n ih =>
    intro retry s h
    rw [detLoop] at h
    cases hout : expand saltB seedB (detInfo service retry) with
    | none => rw [hout] at h; simp at h
    | some output =>
      rw [hout] at h
      simp only at h
      by_cases hv : is_valid_password (detCandidate output retry) = true
      · rw [if_pos hv] at h
        cases h
        exact ⟨by simp [detCandidate], hv⟩
      · rw [if_neg hv] at h
        exact ih (retry + 1) s h

/-- Each class charset of generate_pattern_password is non-empty. -/
theorem classCharset_pos (c : Char) (cs : List Char) (h : classCharset c = some cs) :
    0 < cs.length := by
  unfold classCharset at h
  split_ifs at h <;> simp_all <;> subst h <;> decide

/-- The pattern loop produces one character per template character. -/
theorem patChars_length (rng : Nat → Nat) :
    ∀ (l : List Char) (i : Nat), (patChars rng l i).length = l.length := by
  intro l
  induction l with
  | nil => intro i; rfl
  | cons c rest ih => intro i; simp [patChars, ih]

/-- On a template whose characters all lie in the {U, L, D, S} alphabet,
the pattern loop succeeds with the characters described by patChars. -/
theorem patLoop_ok (rng : Nat → Nat) :
    ∀ (l : List Char) (i : Nat) (acc : List Char),
      (∀ c ∈ l, (classCharset c).isSome) →
      patLoop rng l i acc = .ok ⟨acc.reverse ++ patChars rng l i⟩ := by
  intro l
  induction l with
  | nil => intro i acc _; simp [patLoop, patChars]
  | cons c rest ih =>
    intro i acc h
    have hc : (classCharset c).isSome := h c (by simp)
    obtain ⟨cs, hcs⟩ := Option.isSome_iff_exists.mp hc
    rw [patLoop, hcs]
    show patLoop rng rest (i + 1) (cs.getD (rng i % cs.length) 'a' :: acc) = _
    rw [ih (i + 1) _ (fun d hd => h d (by simp [hd]))]
    simp [patChars, hcs]

/-- On a template containing an out-of-alphabet character, the pattern
loop fails with InvalidPatternCharacter carrying the first such
character. -/
theorem patLoop_err (rng : Nat → Nat) :
    ∀ (l : List Char) (i : Nat) (acc : List Char) (c : Char),
      firstInvalid l = some c →
      patLoop rng l i acc = .error (.InvalidPatternCharacter c) := by
  intro l
  induction l with
  | nil => intro i acc c h; simp [firstInvalid] at h
  | cons d rest ih =>
    intro i acc c h
    rw [firstInvalid] at h
    by_cases hd : (classCharset d).isSome
    · rw [if_pos hd] at h
      obtain ⟨cs, hcs⟩ := Option.isSome_iff_exists.mp hd
      rw [patLoop, hcs]
      exact ih (i + 1) _ c h
    · rw [if_neg hd] at h
      cases h
      have : classCharset d = none := Option.not_isSome_iff_eq_none.mp hd
      rw [patLoop, this]

/-- Each character produced by the pattern loop belongs to the class
charset selected by the corresponding template character. -/
theorem patChars_getD (rng : Nat → Nat) :
    ∀ (l : List Char) (i j : Nat), j < l.length →
      (∀ c ∈ l, (classCharset c).isSome) →
      ∃ cs, classCharset (l.getD j 'U') = some cs ∧
        (patChars rng l i).getD j 'a' ∈ cs := by
  intro l
  induction l with
  | nil => intro i j hj _; simp at hj
  | cons c rest ih =>
    intro i j hj h
    cases j with
    | zero =>
      have hc : (classCharset c).isSome := h c (by simp)
      obtain ⟨cs, hcs⟩ := Option.isSome_iff_exists.mp hc
      refine ⟨cs, by simpa using hcs, ?_⟩
      have hpos : 0 < cs.length := classCharset_pos c cs hcs
      have hlt : rng i % cs.length < cs.length := Nat.mod_lt _ hpos
      simp only [patChars, hcs, List.getD_cons_zero]
      rw [List.getD_eq_getElem _ _ hlt]
      exact List.getElem_mem _
    | succ j' =>
      have hj' : j' < rest.length := by simpa using hj
      have := ih (i + 1) j' hj' (fun d hd => h d (by simp [hd]))
      simpa [patChars] using this

/-- Character count never exceeds UTF-8 byte count. -/
theorem length_le_utf8Len : ∀ l : List Char, l.length ≤ String.utf8Len l := by
  intro l
  induction l with
  | nil => simp
  | cons c rest ih =>
    have := Char.utf8Size_pos c
    simp only [List.length_cons, String.utf8Len_cons]
    omega

/-- With a character of UTF-8 size above one, the byte count strictly
exceeds the character count. -/
theorem length_lt_utf8Len (l : List Char) (h : ∃ c ∈ l, 1 < c.utf8Size) :
    l.length < String.utf8Len l := by
  induction l with
  | nil => simp at h
  | cons c rest ih =>
    obtain ⟨d, hd, hsize⟩ := h
    rcases List.mem_cons.mp hd with rfl | hdrest
    · have := length_le_utf8Len rest
      simp only [List.length_cons, String.utf8Len_cons]
      omega
    · have := ih ⟨d, hdrest, hsize⟩
      have := Char.utf8Size_pos c
      simp only [List.length_cons, String.utf8Len_cons]
      omega

/-- Lowering a trimmed non-empty string leaves it non-empty. -/
theorem lowerStr_ne_empty (s : String) (h : s ≠ "") : lowerStr s ≠ "" := by
  intro hc
  apply h
  have hd : (lowerStr s).data = s.data.map Char.toLower := rfl
  have : s.data.map Char.toLower = [] := by
    rw [← hd, hc]
  have hnil : s.data = [] := List.map_eq_nil_iff.mp this
  cases s
  simp_all

/-- C1 counterexample: analyze on the empty string returns total score 10,
not 0 as claimed — the no-repetition half of the complexity score is
earned even by the empty string, while the common-pattern check matches it
against every non-empty corpus entry. -/
theorem C1_empty_analysis_cex :
    (analyze_password "").score.total = 10 ∧ (10 : Nat) ≠ 0 :=
  ⟨by decide, by decide⟩

/-- C1 (amended): analyze applied to the empty string returns total score
10 (length 0, diversity 0, complexity 10 from the no-repetition bonus,
entropy score 0), rating weak, and entropy 0.0. -/
theorem C1_empty_analysis :
    (analyze_password "").score.total = 10 ∧
    (analyze_password "").score.length_score = 0 ∧
    (analyze_password "").score.diversity_score = 0 ∧
    (analyze_password "").score.complexity_score = 10 ∧
    (analyze_password "").score.entropy_score = 0 ∧
    (analyze_password "").rating = .weak ∧
    (analyze_password "").entropy = 0 := by
  refine ⟨by decide, by decide, by decide, by decide, by decide, by decide, ?_⟩
  have h : entropyCharsetSize "" = 0 := rfl
  simp [analyze_password, calculate_entropy_score, h]

/-- C2 counterexample: the combined charset contains 76 characters, not 78
as claimed — 26 lowercase + 26 uppercase + 10 digits + 14 specials. -/
theorem C2_charset_cex : CHARSET.length = 76 ∧ (76 : Nat) ≠ 78 :=
  ⟨by decide, by decide⟩

/-- C2 (amended): the combined charset used by random and deterministic
generation is the union (concatenation) of the four character classes and
contains exactly 76 characters; sampled bytes are reduced modulo 76 to
index it, both in the random sampling step and in the deterministic
byte-to-character mapping. -/
theorem C2_charset :
    CHARSET = LOWERCASE ++ UPPERCASE ++ DIGITS ++ SPECIAL ∧
    LOWERCASE.length = 26 ∧ UPPERCASE.length = 26 ∧
    DIGITS.length = 10 ∧ SPECIAL.length = 14 ∧
    CHARSET.length = 76 ∧
    (∀ rng start len, sampleChars rng start len =
      (List.range len).map fun i => CHARSET.getD (rng (start + i) % 76) 'a') ∧
    (∀ output retry, detCandidate output retry =
      ⟨(List.range 20).map fun i =>
        CHARSET.getD (output.getD ((retry * 13 % 32 + i) % 32) 0 % 76) 'a'⟩) := by
  have h76 : CHARSET.length = 76 := by decide
  refine ⟨by decide, by decide, by decide, by decide, by decide, h76, ?_, ?_⟩
  · intro rng start len
    simp [sampleChars, h76]
  · intro output retry
    simp [detCandidate, h76]

/-- C8: score_to_rating maps totals 0-40 to weak, 41-60 to medium, 61-80
to strong and above 80 to very strong, with the claimed boundary
values. -/
theorem C8_rating_bands (n : Nat) :
    (score_to_rating n = .weak ↔ n ≤ 40) ∧
    (score_to_rating n = .medium ↔ 41 ≤ n ∧ n ≤ 60) ∧
    (score_to_rating n = .strong ↔ 61 ≤ n ∧ n ≤ 80) ∧
    (score_to_rating n = .veryStrong ↔ 81 ≤ n) ∧
    score_to_rating 40 = .weak ∧ score_to_rating 41 = .medium ∧
    score_to_rating 60 = .medium ∧ score_to_rating 61 = .strong ∧
    score_to_rating 80 = .strong ∧ score_to_rating 81 = .veryStrong := by
  refine ⟨?_, ?_, ?_, ?_, by decide, by decide, by decide, by decide, by decide, by decide⟩ <;>
    · unfold score_to_rating
      split_ifs <;> simp_all <;> omega

/-- C9 counterexample: a corpus whose only entry is non-empty but
whitespace-only defeats the claim — the entry trims to the empty string
and is skipped, so the common-pattern check returns false on the empty
password. -/
theorem C9_empty_common_cex :
    (" " : String) ≠ "" ∧ hasCommonPatternsWith [" "] "" = false :=
  ⟨by decide, by decide⟩

/-- C9 (amended): for every common-password corpus containing at least one
entry that is non-empty after trimming, the common-pattern check returns
true on the empty password, because every such trimmed entry contains the
empty string as a substring; consequently analyzing the empty string with
the bundled corpus yields the common-pattern warning and a complexity
score of 10 rather than 25. -/
theorem C9_empty_common :
    (∀ corpus : List String, (∃ e ∈ corpus, trimStr e ≠ "") →
      hasCommonPatternsWith corpus "" = true) ∧
    calculate_complexity_score "" = 10 ∧
    (analyze_password "").score.complexity_score = 10 ∧
    "common_patterns" ∈ (analyze_password "").warnings := by
  refine ⟨?_, by decide, by decide, by decide⟩
  rintro corpus ⟨e, he, hne⟩
  unfold hasCommonPatternsWith
  rw [List.any_eq_true]
  refine ⟨e, he, ?_⟩
  dsimp only
  have h1 : lowerStr (trimStr e) ≠ "" := lowerStr_ne_empty _ hne
  rw [if_neg h1]
  have h2 : occursIn (lowerStr "").data (lowerStr (trimStr e)).data = true := by
    have h0 : (lowerStr "").data = [] := rfl
    rw [h0]
    exact occursIn_nil _
  simp [h2]

/-- C9 witness: the amended statement applied to the one-entry corpus
["password"]. -/
theorem C9_empty_common_witness :
    (∃ e ∈ (["password"] : List String), trimStr e ≠ "") ∧
    hasCommonPatternsWith ["password"] "" = true :=
  ⟨⟨"password", by decide, by decide⟩,
   C9_empty_common.1 ["password"] ⟨"password", by decide, by decide⟩⟩

/-- C5: analyze is total — for every input string (the embedding is a
total function, mirroring the panic-free source loop structure) it returns
a well-formed PasswordAnalysis: the total is the sum of the four
sub-scores, each sub-score and the total respect their documented ranges,
the rating is derived from the total, and warnings and suggestions are
appended pairwise. -/
theorem C5_analyze_total (password : String) :
    (analyze_password password).score.total =
      (analyze_password password).score.length_score +
        (analyze_password password).score.diversity_score +
        (analyze_password password).score.complexity_score +
        (analyze_password password).score.entropy_score ∧
    (analyze_password password).score.length_score ≤ 25 ∧
    (analyze_password password).score.diversity_score ≤ 30 ∧
    (analyze_password password).score.complexity_score ≤ 25 ∧
    (analyze_password password).score.entropy_score ≤ 20 ∧
    (analyze_password password).score.total ≤ 100 ∧
    (analyze_password password).rating =
      score_to_rating (analyze_password password).score.total ∧
    (analyze_password password).warnings.length =
      (analyze_password password).suggestions.length := by
  have h1 := calculate_length_score_le password.utf8ByteSize
  have h2 := calculate_diversity_score_le password
  have h3 := calculate_complexity_score_le password
  have h4 := calculate_entropy_score_le password
  have ht : (analyze_password password).score.total =
      calculate_length_score password.utf8ByteSize +
        (calculate_diversity_score password).1 +
        calculate_complexity_score password +
        (calculate_entropy_score password).1 := rfl
  refine ⟨rfl, h1, h2, h3, h4, by omega, rfl, ?_⟩
  simp [analyze_password, apply_ite List.length]

/-- C10: the length field reported by analyze, the length used by the
length score, and the length factor of the entropy formula are all the
UTF-8 byte length of the password, so a password containing a multi-byte
character is scored as longer than its character count. -/
theorem C10_byte_length (s : String) :
    (analyze_password s).length = s.utf8ByteSize ∧
    (analyze_password s).score.length_score = calculate_length_score s.utf8ByteSize ∧
    (entropyCharsetSize s ≠ 0 →
      (analyze_password s).entropy =
        (s.utf8ByteSize : ℝ) * Real.logb 2 (entropyCharsetSize s)) ∧
    ((∃ c ∈ s.data, 1 < c.utf8Size) → s.length < (analyze_password s).length) := by
  refine ⟨rfl, rfl, ?_, ?_⟩
  · intro h
    have he : (analyze_password s).entropy = (calculate_entropy_score s).2 := rfl
    rw [he]
    unfold calculate_entropy_score
    dsimp only
    rw [if_neg h]
  · intro h
    have h1 : (analyze_password s).length = s.utf8ByteSize := rfl
    rw [h1]
    have h2 : s.utf8ByteSize = String.utf8Len s.data := by cases s; rfl
    rw [h2]
    exact length_lt_utf8Len s.data h

/-- C10 witness: the password "pä1!" (5 UTF-8 bytes, 4 characters) has a
non-empty effective charset, its entropy factor is the byte length, and it
is scored as longer than its character count. -/
theorem C10_byte_length_witness :
    (entropyCharsetSize "pä1!" ≠ 0 ∧
      (analyze_password "pä1!").entropy =
        (("pä1!" : String).utf8ByteSize : ℝ) *
          Real.logb 2 (entropyCharsetSize "pä1!")) ∧
    (∃ c ∈ ("pä1!" : String).data, 1 < c.utf8Size) ∧
    ("pä1!" : String).length < (analyze_password "pä1!").length :=
  ⟨⟨by decide, (C10_byte_length "pä1!").2.2.1 (by decide)⟩,
   ⟨'ä', by decide, by decide⟩,
   (C10_byte_length "pä1!").2.2.2 ⟨'ä', by decide, by decide⟩⟩

/-- Every character of the {U, L, D, S} alphabet selects a class
charset. -/
theorem classCharset_isSome_of_mem (c : Char)
    (h : c ∈ (['U', 'L', 'D', 'S'] : List Char)) : (classCharset c).isSome := by
  rcases h with _ | ⟨_, _ | ⟨_, _ | ⟨_, _ | ⟨_, h⟩⟩⟩⟩ <;> first | decide | cases h

/-- Random stream cycling through one character of each class, witnessing
first-attempt success of the random generator. -/
def diverseStream : Nat → Nat :=
  fun i => [0, 26, 52, 62].getD (i % 4) 0

/-- C4: for every length in [8, 64] every accepted random password has
exactly that length and passes is_valid; every length outside [8, 64]
fails with InvalidLength (in particular 7 and 65), and lengths 8 and 64
succeed (exhibited on the diverse stream). -/
theorem C4_random_length (rng : Nat → Nat) (length : Nat) :
    (8 ≤ length ∧ length ≤ 64 →
      ∀ s, generate_random_password rng length = .ok s →
        s.length = length ∧ is_valid_password s = true) ∧
    (length < 8 ∨ 64 < length →
      generate_random_password rng length =
        .error (.InvalidLength
          ("Password length must be between 8 and 64, got: " ++ toString length))) ∧
    generate_random_password rng 7 =
      .error (.InvalidLength "Password length must be between 8 and 64, got: 7") ∧
    generate_random_password rng 65 =
      .error (.InvalidLength "Password length must be between 8 and 64, got: 65") ∧
    generate_random_password diverseStream 8 = .ok "aA0!aA0!" ∧
    generate_random_password diverseStream 64 =
      .ok "aA0!aA0!aA0!aA0!aA0!aA0!aA0!aA0!aA0!aA0!aA0!aA0!aA0!aA0!aA0!aA0!" := by
  refine ⟨?_, ?_, ?_, ?_, by decide, by decide⟩
  · intro h s hs
    rw [generate_random_password, if_pos h] at hs
    exact randomAttempts_ok rng length 100 0 s hs
  · intro h
    rw [generate_random_password, if_neg (by omega)]
  · rw [generate_random_password, if_neg (by omega)]; rfl
  · rw [generate_random_password, if_neg (by omega)]; rfl

/-- C4 witness: the in-range case applied at length 8 on the diverse
stream. -/
theorem C4_random_length_witness :
    (8 ≤ 8 ∧ 8 ≤ 64) ∧
    ("aA0!aA0!" : String).length = 8 ∧ is_valid_password "aA0!aA0!" = true :=
  ⟨by decide,
   (C4_random_length diverseStream 8).1 (by decide) "aA0!aA0!" (by decide)⟩

/-- C6: pattern generation maps every all-alphabet non-empty template to a
string of the template's length whose position j holds a character of the
class charset of template character j; the empty template fails with
EmptyPattern; a template with an out-of-alphabet character fails with
InvalidPatternCharacter carrying the first such character, with no retry;
and the output is not checked against the validator ("UUUU" is returned
although it fails is_valid, and "UX" fails carrying 'X'). -/
theorem C6_pattern (rng : Nat → Nat) (pattern : String) :
    (pattern = "" → generate_pattern_password rng pattern = .error .EmptyPattern) ∧
    (pattern ≠ "" → (∀ c ∈ pattern.data, c ∈ (['U', 'L', 'D', 'S'] : List Char)) →
      ∃ s, generate_pattern_password rng pattern = .ok s ∧
        s.length = pattern.length ∧
        ∀ j, j < pattern.length →
          ∃ cs, classCharset (pattern.data.getD j 'U') = some cs ∧
            s.data.getD j 'a' ∈ cs) ∧
    (∀ c, firstInvalid pattern.data = some c →
      generate_pattern_password rng pattern = .error (.InvalidPatternCharacter c)) ∧
    generate_pattern_password rng "UX" = .error (.InvalidPatternCharacter 'X') ∧
    generate_pattern_password (fun _ => 0) "UUUU" = .ok "AAAA" ∧
    is_valid_password "AAAA" = false := by
  refine ⟨?_, ?_, ?_, ?_, by decide, by decide⟩
  · intro he
    rw [generate_pattern_password, if_pos he]
  · intro hne hall
    have hall' : ∀ c ∈ pattern.data, (classCharset c).isSome :=
      fun c hc => classCharset_isSome_of_mem c (hall c hc)
    refine ⟨⟨patChars rng pattern.data 0⟩, ?_, ?_, ?_⟩
    · rw [generate_pattern_password, if_neg hne]
      simpa using patLoop_ok rng pattern.data 0 [] hall'
    · exact patChars_length rng pattern.data 0
    · intro j hj
      exact patChars_getD rng pattern.data 0 j hj hall'
  · intro c h
    have hne : pattern ≠ "" := by
      intro he
      rw [he] at h
      exact Option.noConfusion h
    rw [generate_pattern_password, if_neg hne]
    exact patLoop_err rng pattern.data 0 [] c h
  · rw [generate_pattern_password, if_neg (by decide)]
    exact patLoop_err rng "UX".data 0 [] 'X' (by decide)

/-- C6 witness: the all-alphabet case applied to the template "UDDL" on
the zero stream. -/
theorem C6_pattern_witness :
    ("UDDL" : String) ≠ "" ∧
    (∀ c ∈ ("UDDL" : String).data, c ∈ (['U', 'L', 'D', 'S'] : List Char)) ∧
    ∃ s, generate_pattern_password (fun _ => 0) "UDDL" = .ok s ∧
      s.length = ("UDDL" : String).length ∧
      ∀ j, j < ("UDDL" : String).length →
        ∃ cs, classCharset (("UDDL" : String).data.getD j 'U') = some cs ∧
          s.data.getD j 'a' ∈ cs :=
  ⟨by decide, by decide,
   (C6_pattern (fun _ => 0) "UDDL").2.1 (by decide) (by decide)⟩

/-- C7: phrase generation with wordCount in [3, 20] over a non-empty
corpus returns exactly wordCount corpus words joined by '-'; wordCount
outside [3, 20] (in particular 2 and 21) fails with InvalidWordCount, and
an empty resolved corpus fails with EmptyWordlist. -/
theorem C7_phrase (words : List String) (rng : Nat → Nat) (n : Nat) :
    (3 ≤ n ∧ n ≤ 20 → words ≠ [] →
      ∃ ws : List String,
        generate_phrase_password words rng n = .ok (String.intercalate "-" ws) ∧
        ws.length = n ∧ ∀ w ∈ ws, w ∈ words) ∧
    (n < 3 ∨ 20 < n → generate_phrase_password words rng n = .error .InvalidWordCount) ∧
    (3 ≤ n ∧ n ≤ 20 → words = [] →
      generate_phrase_password words rng n = .error .EmptyWordlist) ∧
    generate_phrase_password words rng 2 = .error .InvalidWordCount ∧
    generate_phrase_password words rng 21 = .error .InvalidWordCount := by
  refine ⟨?_, ?_, ?_, ?_, ?_⟩
  · intro h hw
    refine ⟨(List.range n).map fun i => words.getD (rng i % words.length) "",
      ?_, by simp, ?_⟩
    · rw [generate_phrase_password, if_pos h, if_neg hw]
    · intro w hwmem
      simp only [List.mem_map, List.mem_range] at hwmem
      obtain ⟨i, _, rfl⟩ := hwmem
      have hpos : 0 < words.length := List.length_pos.mpr hw
      have hlt : rng i % words.length < words.length := Nat.mod_lt _ hpos
      rw [List.getD_eq_getElem _ _ hlt]
      exact List.getElem_mem _
  · intro h
    rw [generate_phrase_password, if_neg (by omega)]
  · intro h hw
    rw [generate_phrase_password, if_pos h, if_pos hw]
  · rw [generate_phrase_password, if_neg (by omega)]
  · rw [generate_phrase_password, if_neg (by omega)]

/-- C7 witness: the in-range case applied at wordCount 5 on a three-word
corpus with the identity stream. -/
theorem C7_phrase_witness :
    (3 ≤ 5 ∧ 5 ≤ 20) ∧ (["apple", "banana", "cherry"] : List String) ≠ [] ∧
    ∃ ws : List String,
      generate_phrase_password ["apple", "banana", "cherry"] (fun i => i) 5 =
        .ok (String.intercalate "-" ws) ∧
      ws.length = 5 ∧ ∀ w ∈ ws, w ∈ (["apple", "banana", "cherry"] : List String) :=
  ⟨by decide, by decide,
   (C7_phrase ["apple", "banana", "cherry"] (fun i => i) 5).1 (by decide) (by decide)⟩

/-- HKDF expand stand-in used to witness the deterministic generator: a
constant 32-byte block whose first four bytes index one character of each
class. -/
def constExpand : List Nat → List Nat → List Nat → Option (List Nat) :=
  fun _ _ _ => some ([0, 26, 52, 62] ++ List.replicate 28 0)

/-- C3: deterministic generation is a pure function of (seed, salt,
service) — in the embedding it takes no random stream (unlike the random
and pattern paths) and, for every pure HKDF expand function, every
non-empty seed and any optional salt and service, two calls with identical
arguments return the identical result, and every successful result has
exactly 20 characters (and passes the validator). -/
theorem C3_deterministic
    (expand : List Nat → List Nat → List Nat → Option (List Nat))
    (seed : String) (salt service : Option String) (h : seed ≠ "") :
    generate_deterministic_password expand seed salt service =
      generate_deterministic_password expand seed salt service ∧
    ∀ p, generate_deterministic_password expand seed salt service = .ok p →
      p.length = 20 ∧ is_valid_password p = true := by
  refine ⟨rfl, ?_⟩
  intro p hp
  rw [generate_deterministic_password, if_neg h] at hp
  exact detLoop_ok expand _ _ service 1000 0 p hp

/-- C3 witness: the theorem applied to the constant expand stand-in with
seed "test-seed", which succeeds on the first retry. -/
theorem C3_deterministic_witness :
    ("test-seed" : String) ≠ "" ∧
    ("aA0!aaaaaaaaaaaaaaaa" : String).length = 20 ∧
    is_valid_password "aA0!aaaaaaaaaaaaaaaa" = true :=
  ⟨by decide,
   (C3_deterministic constExpand "test-seed" none none (by decide)).2
     "aA0!aaaaaaaaaaaaaaaa" (by decide)⟩

end KdGuard
